import Mathlib

/-!
# Verification of the amortizing-loan calculator (src/script.js)

Shallow embedding of the amortization engine.  Numeric inputs are taken as
exact rationals (the spec's "exact arithmetic" idealization of JS numbers).
A JS number that may be non-finite (NaN or ±Infinity) is modelled as
`Option ℚ`: `some q` is the finite value `q`, `none` is any non-finite value.
With finite rational inputs, the only operation in the script that can
produce a non-finite value from finite operands is the division
`numerator / denominator` (line 23); multiplication, addition, subtraction
and `Math.pow` with a natural exponent are exact on finite operands, and
every arithmetic operation used here maps a non-finite operand to a
non-finite result, so the `Option` abstraction is faithful.

Calendar dates model the UTC date part of a JS `Date`; `setMonth` follows
ECMAScript `MakeDay`: out-of-range months carry into the year, and a
day-of-month exceeding the target month's length rolls over into the next
month (for valid days 1..31 the overflow is at most 3 days, so a single
rollover step is exact).
-/

/-- A calendar date: year, 0-based month (0..11, as JS `getMonth`), 1-based
day of month. -/
structure Date where
  year : ℤ
  month : ℕ
  day : ℕ
deriving DecidableEq, Repr

/-- Gregorian leap-year rule, as used by JS `Date`. -/
def isLeap (y : ℤ) : Bool :=
  (y % 4 == 0 && y % 100 != 0) || (y % 400 == 0)

/-- Number of days of 0-based month `m` of year `y`. -/
def daysInMonth (y : ℤ) (m : ℕ) : ℕ :=
  match m with
  | 1 => if isLeap y then 29 else 28
  | 3 => 30
  | 5 => 30
  | 8 => 30
  | 10 => 30
  | _ => 31

/-- JS `date.setMonth(m)` for `m ≥ 0`: the month index carries into the
year, and a day of month exceeding the target month's length rolls over
into the following month (ECMAScript `MakeDay` semantics, exact for day
values 1..31). -/
def setMonth (dt : Date) (m : ℕ) : Date :=
  let y : ℤ := dt.year + (m / 12 : ℕ)
  let mo : ℕ := m % 12
  if dt.day ≤ daysInMonth y mo then ⟨y, mo, dt.day⟩
  else if mo = 11 then ⟨y + 1, 0, dt.day - daysInMonth y mo⟩
  else ⟨y, mo + 1, dt.day - daysInMonth y mo⟩

/-- Lines 38-39 of the script: `const date = new Date(startDate);
date.setMonth(date.getMonth() + i)` — a fresh date built from the start
date, advanced by `i` months. -/
def jsAddMonths (dt : Date) (i : ℕ) : Date :=
  setMonth dt (dt.month + i)

/-- A JS number at the finite/non-finite level of abstraction:
`some q` is the finite (exact) value `q`, `none` is non-finite
(NaN or ±Infinity). -/
abbrev JS := Option ℚ

/-- JS addition: exact on finite operands; a non-finite operand gives a
non-finite result. -/
def jsAdd : JS → JS → JS
  | some a, some b => some (a + b)
  | _, _ => none

/-- JS subtraction: exact on finite operands; a non-finite operand gives a
non-finite result. -/
def jsSub : JS → JS → JS
  | some a, some b => some (a - b)
  | _, _ => none

/-- JS multiplication: exact on finite operands; a non-finite operand gives
a non-finite result. -/
def jsMul : JS → JS → JS
  | some a, some b => some (a * b)
  | _, _ => none

/-- JS division of two finite values: finite and exact when the divisor is
nonzero, non-finite (±Infinity or NaN) when the divisor is zero. -/
def jsDivFin (a b : ℚ) : JS :=
  if b = 0 then none else some (a / b)

/-- Idealized `toFixed(2)`: round to the nearest hundredth. -/
def round2 (q : ℚ) : ℚ :=
  (round (q * 100) : ℚ) / 100

/-- `toFixed(2)` lifted to JS values (`toFixed` of a non-finite value shows
a non-numeric string, kept as `none`). -/
def jsRound2 : JS → JS :=
  Option.map round2

/-- One row pushed by the schedule loop (lines 45-50): the formatted date
and the three `toFixed(2)`-rounded amounts. -/
structure PeriodRow where
  date : Date
  principalAmount : JS
  interest : JS
  balance : JS
deriving DecidableEq, Repr

/-- Placeholder row used as the default for out-of-range list lookups. -/
def blankRow : PeriodRow :=
  ⟨⟨0, 0, 1⟩, none, none, none⟩

/-- The body of the `for` loop of `generateRepaymentScheduleArray`
(lines 37-51), with the mutable `balance` and loop index threaded
explicitly: `k` periods remain, `i` is the current period index, `bal` is
the running balance. -/
def scheduleGo (monthlyEMI : JS) (interestRate : ℚ) (startDate : Date) :
    ℕ → ℕ → JS → List PeriodRow
  | 0, _, _ => []
  | k + 1, i, bal =>
    let interest := jsMul bal (some (interestRate / 12))
    let principal := jsSub monthlyEMI interest
    let bal' := jsSub bal principal
    { date := jsAddMonths startDate i
      principalAmount := jsRound2 principal
      interest := jsRound2 interest
      balance := jsRound2 bal' } :: scheduleGo monthlyEMI interestRate startDate k (i + 1) bal'

/-- Lines 33-54: build the repayment schedule by iterating period indices
`0..loanDuration-1` with a running balance starting at `loanAmount`. -/
def generateRepaymentScheduleArray (loanAmount : ℚ) (monthlyEMI : JS)
    (loanDuration : ℕ) (startDate : Date) (interestRate : ℚ) : List PeriodRow :=
  scheduleGo monthlyEMI interestRate startDate loanDuration 0 (some loanAmount)

/-- The record returned by `calculateLoanDetails` (line 30). -/
structure LoanResult where
  monthlyEMI : JS
  totalInterest : JS
  totalAmount : JS
  repaymentSchedule : List PeriodRow
deriving DecidableEq, Repr

/-- Lines 19-31: the amortization engine.  `interestRate` is the annual
rate as a fraction (the percentage already divided by 100, as at line 4). -/
def calculateLoanDetails (loanAmount interestRate : ℚ) (loanDuration : ℕ)
    (startDate : Date) : LoanResult :=
  let monthlyInterest := interestRate / 12
  let numerator := loanAmount * monthlyInterest * (1 + monthlyInterest) ^ loanDuration
  let denominator := (1 + monthlyInterest) ^ loanDuration - 1
  let monthlyEMI : JS := jsDivFin numerator denominator
  let repaymentSchedule :=
    generateRepaymentScheduleArray loanAmount monthlyEMI loanDuration startDate interestRate
  let totalInterest := jsSub (jsMul monthlyEMI (some (loanDuration : ℚ))) (some loanAmount)
  let totalAmount := jsAdd totalInterest (some loanAmount)
  { monthlyEMI := monthlyEMI
    totalInterest := totalInterest
    totalAmount := totalAmount
    repaymentSchedule := repaymentSchedule }

/-- Lines 2-8 of `calculateLoan`, with the DOM reads and writes stripped:
the percentage input is divided by 100 (line 4) and the engine is invoked
once.  Inputs are assumed to have parsed to finite numbers. -/
def calculateLoan (loanAmount annualRatePercent : ℚ) (loanDuration : ℕ)
    (startDate : Date) : LoanResult :=
  calculateLoanDetails loanAmount (annualRatePercent / 100) loanDuration startDate

/-- The running-balance recurrence of the schedule loop at the JS level
(spec §4.1 step 3): the balance starts at the principal and each period
decreases by `principalPortion = monthlyPayment - interestPortion`, where
`interestPortion = runningBalance * monthlyRate`; the carried value is the
unrounded one. -/
def runningBalance (bal0 monthlyEMI : JS) (monthlyRate : ℚ) : ℕ → JS
  | 0 => bal0
  | j + 1 =>
    jsSub (runningBalance bal0 monthlyEMI monthlyRate j)
      (jsSub monthlyEMI (jsMul (runningBalance bal0 monthlyEMI monthlyRate j) (some monthlyRate)))

/-- The running-balance recurrence over exact rationals: `runBal b e rm j`
is the balance after `j` periods starting from `b` with monthly payment `e`
and monthly rate `rm`. -/
def runBal (b e rm : ℚ) : ℕ → ℚ
  | 0 => b
  | j + 1 => runBal b e rm j - (e - runBal b e rm j * rm)

/-! ## Helper lemmas -/

theorem scheduleGo_length (e : JS) (r : ℚ) (d : Date) :
    ∀ (k i : ℕ) (bal : JS), (scheduleGo e r d k i bal).length = k := by
  intro k
  induction k with
  | zero => intro i bal; rfl
  | succ k ih =>
    intro i bal
    simp only [scheduleGo, List.length_cons, ih]

theorem runningBalance_shift (bal e : JS) (rm : ℚ) (j : ℕ) :
    runningBalance (jsSub bal (jsSub e (jsMul bal (some rm)))) e rm j =
      runningBalance bal e rm (j + 1) := by
  induction j with
  | zero => rfl
  | succ j ih => simp only [runningBalance, ih]

theorem scheduleGo_getD (e : JS) (r : ℚ) (d : Date) :
    ∀ (k j i : ℕ) (bal : JS), j < k →
      (scheduleGo e r d k i bal).getD j blankRow =
        { date := jsAddMonths d (i + j)
          principalAmount :=
            jsRound2 (jsSub e (jsMul (runningBalance bal e (r / 12) j) (some (r / 12))))
          interest := jsRound2 (jsMul (runningBalance bal e (r / 12) j) (some (r / 12)))
          balance := jsRound2 (runningBalance bal e (r / 12) (j + 1)) } := by
  intro k
  induction k with
  | zero => intro j i bal h; exact absurd h (Nat.not_lt_zero j)
  | succ k ih =>
    intro j i bal h
    cases j with
    | zero =>
      simp [scheduleGo, runningBalance]
    | succ j =>
      have h' : j < k := Nat.lt_of_succ_lt_succ h
      simp only [scheduleGo, List.getD_cons_succ]
      rw [ih j (i + 1) (jsSub bal (jsSub e (jsMul bal (some (r / 12))))) h']
      rw [runningBalance_shift, runningBalance_shift]
      congr 2
      omega

theorem runningBalance_some (b ev rm : ℚ) (j : ℕ) :
    runningBalance (some b) (some ev) rm j = some (runBal b ev rm j) := by
  induction j with
  | zero => rfl
  | succ j ih => simp only [runningBalance, runBal, ih, jsMul, jsSub]

theorem runBal_closed (b ev rm : ℚ) (h : rm ≠ 0) :
    ∀ j : ℕ, runBal b ev rm j = (b - ev / rm) * (1 + rm) ^ j + ev / rm := by
  intro j
  induction j with
  | zero => simp [runBal]
  | succ j ih =>
    rw [runBal, ih, pow_succ]
    field_simp
    ring

/-! ## Claim theorems -/

/-- C1: for every principal > 0, annualRatePercent > 0 and termMonths > 0,
the monthly payment returned by the engine equals
principal * monthlyRate * (1 + monthlyRate)^termMonths /
((1 + monthlyRate)^termMonths - 1), where
monthlyRate = (annualRatePercent / 100) / 12. -/
theorem C1_monthly_payment_formula (P a : ℚ) (n : ℕ) (d : Date)
    (hP : 0 < P) (ha : 0 < a) (hn : 0 < n) :
    (calculateLoan P a n d).monthlyEMI =
      some (P * (a / 100 / 12) * (1 + a / 100 / 12) ^ n /
        ((1 + a / 100 / 12) ^ n - 1)) := by
  have hr : 0 < a / 100 / 12 := by positivity
  have hpow : 1 < (1 + a / 100 / 12) ^ n := one_lt_pow₀ (by linarith) hn.ne'
  have hden : (1 + a / 100 / 12) ^ n - 1 ≠ 0 := sub_ne_zero.mpr (ne_of_gt hpow)
  simp only [calculateLoan, calculateLoanDetails, jsDivFin, if_neg hden]

/-- Witness for C1 at principal 100, rate 1200%, term 1 month. -/
theorem C1_monthly_payment_formula_witness :
    (0 : ℚ) < 100 ∧ (0 : ℚ) < 1200 ∧ 0 < 1 ∧
      (calculateLoan 100 1200 1 ⟨2024, 0, 1⟩).monthlyEMI =
        some (100 * (1200 / 100 / 12) * (1 + 1200 / 100 / 12) ^ 1 /
          ((1 + 1200 / 100 / 12) ^ 1 - 1)) :=
  ⟨by norm_num, by norm_num, by norm_num,
    C1_monthly_payment_formula 100 1200 1 ⟨2024, 0, 1⟩ (by norm_num) (by norm_num)
      (by norm_num)⟩

/-- C2: each schedule row `j` shows the 2-decimal roundings of the
unrounded recurrence values: interestPortion = runningBalance * monthlyRate,
principalPortion = monthlyPayment - interestPortion, and the balance shown
is the running balance after subtracting principalPortion; the balance
carried into the next period's interest computation (`runningBalance`) is
the unrounded value, starting from the principal. -/
theorem C2_schedule_rows_round_unrounded_recurrence (P a : ℚ) (n : ℕ) (d : Date)
    (j : ℕ) (hj : j < n) :
    (calculateLoan P a n d).repaymentSchedule.getD j blankRow =
      { date := jsAddMonths d j
        principalAmount :=
          jsRound2 (jsSub (calculateLoan P a n d).monthlyEMI
            (jsMul (runningBalance (some P) (calculateLoan P a n d).monthlyEMI (a / 100 / 12) j)
              (some (a / 100 / 12))))
        interest :=
          jsRound2 (jsMul
            (runningBalance (some P) (calculateLoan P a n d).monthlyEMI (a / 100 / 12) j)
            (some (a / 100 / 12)))
        balance :=
          jsRound2 (runningBalance (some P) (calculateLoan P a n d).monthlyEMI (a / 100 / 12)
            (j + 1)) } := by
  simp only [calculateLoan, calculateLoanDetails, generateRepaymentScheduleArray]
  rw [scheduleGo_getD _ _ _ n j 0 _ hj]
  norm_num

/-- Witness for C2 at principal 100, rate 1200%, term 1 month, row 0. -/
theorem C2_schedule_rows_round_unrounded_recurrence_witness :
    0 < 1 ∧
      (calculateLoan 100 1200 1 ⟨2024, 0, 1⟩).repaymentSchedule.getD 0 blankRow =
        { date := jsAddMonths ⟨2024, 0, 1⟩ 0
          principalAmount :=
            jsRound2 (jsSub (calculateLoan 100 1200 1 ⟨2024, 0, 1⟩).monthlyEMI
              (jsMul (runningBalance (some 100)
                (calculateLoan 100 1200 1 ⟨2024, 0, 1⟩).monthlyEMI (1200 / 100 / 12) 0)
                (some (1200 / 100 / 12))))
          interest :=
            jsRound2 (jsMul (runningBalance (some 100)
              (calculateLoan 100 1200 1 ⟨2024, 0, 1⟩).monthlyEMI (1200 / 100 / 12) 0)
              (some (1200 / 100 / 12)))
          balance :=
            jsRound2 (runningBalance (some 100)
              (calculateLoan 100 1200 1 ⟨2024, 0, 1⟩).monthlyEMI (1200 / 100 / 12) 1) } :=
  ⟨by norm_num,
    C2_schedule_rows_round_unrounded_recurrence 100 1200 1 ⟨2024, 0, 1⟩ 0 (by norm_num)⟩

/-- C3: for every input, the schedule returned by the engine has length
exactly termMonths (in particular for every valid input with
principal > 0, termMonths > 0, annualRatePercent ≥ 0). -/
theorem C3_schedule_length_eq_term (P a : ℚ) (n : ℕ) (d : Date) :
    (calculateLoan P a n d).repaymentSchedule.length = n := by
  simp only [calculateLoan, calculateLoanDetails, generateRepaymentScheduleArray]
  exact scheduleGo_length _ _ _ n 0 _

/-- C4: for every input, the returned record satisfies
totalInterest = monthlyPayment * termMonths - principal and
totalPayable = totalInterest + principal, as identities of the finite/
non-finite JS arithmetic (definitional identities of the returned record). -/
theorem C4_totals_identities (P a : ℚ) (n : ℕ) (d : Date) :
    (calculateLoan P a n d).totalInterest =
        jsSub (jsMul (calculateLoan P a n d).monthlyEMI (some (n : ℚ))) (some P) ∧
      (calculateLoan P a n d).totalAmount =
        jsAdd (calculateLoan P a n d).totalInterest (some P) :=
  ⟨rfl, rfl⟩

/-- C5: for every principal > 0, annualRatePercent > 0 and termMonths > 0,
under exact arithmetic the running balance after the last period is exactly
zero, and accordingly the balance shown in the last schedule row (rounded
to 2 decimals) is exactly 0. -/
theorem C5_final_balance_zero (P a : ℚ) (n : ℕ) (d : Date)
    (hP : 0 < P) (ha : 0 < a) (hn : 0 < n) :
    runBal P (P * (a / 100 / 12) * (1 + a / 100 / 12) ^ n /
        ((1 + a / 100 / 12) ^ n - 1)) (a / 100 / 12) n = 0 ∧
      ((calculateLoan P a n d).repaymentSchedule.getD (n - 1) blankRow).balance =
        some 0 := by
  have hr : (0 : ℚ) < a / 100 / 12 := by positivity
  have hpow : 1 < (1 + a / 100 / 12) ^ n := one_lt_pow₀ (by linarith) hn.ne'
  have hden : (1 + a / 100 / 12) ^ n - 1 ≠ 0 := sub_ne_zero.mpr (ne_of_gt hpow)
  have hzero : runBal P (P * (a / 100 / 12) * (1 + a / 100 / 12) ^ n /
      ((1 + a / 100 / 12) ^ n - 1)) (a / 100 / 12) n = 0 := by
    rw [runBal_closed _ _ _ hr.ne']
    set A := (1 + a / 100 / 12) ^ n with hA
    set rm := a / 100 / 12 with hrm
    field_simp [hr.ne', hden]
    ring
  refine ⟨hzero, ?_⟩
  have hj : n - 1 < n := by omega
  simp only [calculateLoan, calculateLoanDetails, generateRepaymentScheduleArray]
  rw [scheduleGo_getD _ _ _ n (n - 1) 0 _ hj]
  simp only [jsDivFin, if_neg hden, runningBalance_some]
  have hsucc : n - 1 + 1 = n := by omega
  rw [hsucc, hzero]
  simp [jsRound2, round2]

/-- Witness for C5 at principal 100, rate 1200%, term 1 month. -/
theorem C5_final_balance_zero_witness :
    (0 : ℚ) < 100 ∧ (0 : ℚ) < 1200 ∧ 0 < 1 ∧
      (runBal 100 (100 * (1200 / 100 / 12) * (1 + 1200 / 100 / 12) ^ 1 /
          ((1 + 1200 / 100 / 12) ^ 1 - 1)) (1200 / 100 / 12) 1 = 0 ∧
        ((calculateLoan 100 1200 1 ⟨2024, 0, 1⟩).repaymentSchedule.getD (1 - 1)
          blankRow).balance = some 0) :=
  ⟨by norm_num, by norm_num, by norm_num,
    C5_final_balance_zero 100 1200 1 ⟨2024, 0, 1⟩ (by norm_num) (by norm_num) (by norm_num)⟩

/-- C6: whenever the engine's monthly payment is a finite value that
exceeds the interest portion in every period, the (unrounded) running
balance strictly decreases from each period to the next. -/
theorem C6_balance_strictly_decreases (P a : ℚ) (n : ℕ) (d : Date) (e : ℚ)
    (hemi : (calculateLoan P a n d).monthlyEMI = some e)
    (hgt : ∀ i, i < n → runBal P e (a / 100 / 12) i * (a / 100 / 12) < e) :
    ∀ i, i < n → runBal P e (a / 100 / 12) (i + 1) < runBal P e (a / 100 / 12) i := by
  intro i hi
  have h := hgt i hi
  simp only [runBal]
  linarith

/-- Witness for C6 at principal 100, rate 1200%, term 1 month, payment 200. -/
theorem C6_balance_strictly_decreases_witness :
    (calculateLoan 100 1200 1 ⟨2024, 0, 1⟩).monthlyEMI = some 200 ∧
      (∀ i, i < 1 → runBal 100 200 (1200 / 100 / 12) i * (1200 / 100 / 12) < 200) ∧
      runBal 100 200 (1200 / 100 / 12) (0 + 1) < runBal 100 200 (1200 / 100 / 12) 0 :=
  ⟨by norm_num [calculateLoan, calculateLoanDetails, jsDivFin],
    by intro i hi; interval_cases i; norm_num [runBal],
    C6_balance_strictly_decreases 100 1200 1 ⟨2024, 0, 1⟩ 200
      (by norm_num [calculateLoan, calculateLoanDetails, jsDivFin])
      (by intro i hi; interval_cases i; norm_num [runBal]) 0 (by norm_num)⟩

/-- C7: for every principal > 0 and monthly rate r > 0, a one-month loan's
computed monthly payment equals principal * (1 + r) (the engine receives
the annual fractional rate 12 * r). -/
theorem C7_single_period_payment (P r : ℚ) (d : Date) (hP : 0 < P) (hr : 0 < r) :
    (calculateLoanDetails P (12 * r) 1 d).monthlyEMI = some (P * (1 + r)) := by
  have h12 : (12 : ℚ) * r / 12 = r := by ring
  simp only [calculateLoanDetails, jsDivFin, h12, pow_one]
  have hd : (1 : ℚ) + r - 1 = r := by ring
  rw [hd, if_neg hr.ne']
  congr 1
  field_simp
  ring

/-- Witness for C7 at principal 1 and monthly rate 1. -/
theorem C7_single_period_payment_witness :
    (0 : ℚ) < 1 ∧ (0 : ℚ) < 1 ∧
      (calculateLoanDetails 1 (12 * 1) 1 ⟨2024, 0, 1⟩).monthlyEMI = some (1 * (1 + 1)) :=
  ⟨by norm_num, by norm_num,
    C7_single_period_payment 1 1 ⟨2024, 0, 1⟩ (by norm_num) (by norm_num)⟩

/-- C8: for every principal and term, a zero annual rate makes the payment
formula divide zero by zero, so the engine returns a non-finite monthly
payment rather than a distinguished error (no special-casing of zero-rate
loans). -/
theorem C8_zero_rate_nonfinite (P : ℚ) (n : ℕ) (d : Date) :
    (calculateLoan P 0 n d).monthlyEMI = none := by
  simp [calculateLoan, calculateLoanDetails, jsDivFin]

/-- C9: for every principal and rate, a zero-month term makes the payment
formula's denominator (1 + r)^0 - 1 equal zero, so the engine returns a
non-finite monthly payment rather than raising an error. -/
theorem C9_zero_term_nonfinite (P a : ℚ) (d : Date) :
    (calculateLoan P a 0 d).monthlyEMI = none := by
  simp [calculateLoan, calculateLoanDetails, jsDivFin]

/-- C10: the date of schedule row i is the original start date advanced by
i months via a fresh date value, so it depends only on the start date and
i, not on the (possibly rolled-over) dates of earlier rows. -/
theorem C10_row_date_from_start_only (P a : ℚ) (n : ℕ) (d : Date) (i : ℕ)
    (hi : i < n) :
    ((calculateLoan P a n d).repaymentSchedule.getD i blankRow).date =
      jsAddMonths d i := by
  simp only [calculateLoan, calculateLoanDetails, generateRepaymentScheduleArray]
  rw [scheduleGo_getD _ _ _ n i 0 _ hi]
  norm_num

/-- Witness for C10 starting 2024-01-31: row 1 rolls over to March 2 (2024
February has 29 days), while row 2 is March 31, unaffected by row 1's
rollover. -/
theorem C10_row_date_from_start_only_witness :
    1 < 3 ∧ 2 < 3 ∧
      ((calculateLoan 100 12 3 ⟨2024, 0, 31⟩).repaymentSchedule.getD 1 blankRow).date =
        ⟨2024, 2, 2⟩ ∧
      ((calculateLoan 100 12 3 ⟨2024, 0, 31⟩).repaymentSchedule.getD 2 blankRow).date =
        ⟨2024, 2, 31⟩ :=
  ⟨by norm_num, by norm_num,
    (C10_row_date_from_start_only 100 12 3 ⟨2024, 0, 31⟩ 1 (by norm_num)).trans (by decide),
    (C10_row_date_from_start_only 100 12 3 ⟨2024, 0, 31⟩ 2 (by norm_num)).trans (by decide)⟩
